import Mathlib

/-!
Verification of the DitheryDoo pipeline orchestration and encoding-profile
resolution engine, shallowly embedded from `src/ffmpeg_encode.py` and
`src/pipeline.py`.

Modelling conventions:
  * Filesystem paths handled by `pathlib` are embedded as lists of path
    components (`Path := List String`); a single string is used where the
    Python code manipulates a bare string (e.g. a file name).
  * The external world (which binaries resolve on PATH, the encoder's exit
    code, its captured standard-error stream already decoded to text, the
    frame-source's exit code) is an explicit input record; `subprocess`
    spawns are recorded in an explicit trace.
  * Python exceptions are embedded with `PyResult`; code that cannot raise
    returns plain values.
-/

namespace DitheryDoo

/-- One entry of `ENCODING_PROFILES` (ffmpeg_encode.py lines 15-40): codec
name, optional codec profile index (dict key `profile`), optional codec level
(dict key `level`), pixel format, and the list of extra arguments. -/
structure EncodingProfile where
  codec : String
  profile : Option String
  level : Option String
  pix_fmt : String
  extra_args : List String
deriving DecidableEq, Repr

/-- The profile catalog `ENCODING_PROFILES` (ffmpeg_encode.py lines 15-40),
as an association list in the dict's insertion order. -/
def ENCODING_PROFILES : List (String × EncodingProfile) :=
  [ ("prores_422_hq_10bit",
      { codec := "prores_ks", profile := some "3", level := none,
        pix_fmt := "yuv422p10le", extra_args := ["-vendor", "apl0"] }),
    ("prores_444_16bit",
      { codec := "prores_ks", profile := some "4", level := none,
        pix_fmt := "yuv444p16le", extra_args := ["-vendor", "apl0"] }),
    ("ffv1_10bit_422",
      { codec := "ffv1", profile := none, level := some "3",
        pix_fmt := "yuv422p10le",
        extra_args := ["-coder", "1", "-context", "1", "-g", "1"] }),
    ("ffv1_12bit_444",
      { codec := "ffv1", profile := none, level := some "3",
        pix_fmt := "yuv444p12le",
        extra_args := ["-coder", "1", "-context", "1", "-g", "1"] }) ]

/-- `ENCODING_PROFILES.get(format_name)` (ffmpeg_encode.py line 57). -/
def lookupProfile (format_name : String) : Option EncodingProfile :=
  (ENCODING_PROFILES.find? (fun e => e.1 == format_name)).map Prod.snd

/-- The frame-source command `vspipe_cmd` (ffmpeg_encode.py line 64). -/
def vspipe_cmd (vpy_script : String) : List String :=
  ["vspipe", "-c", "y4m", vpy_script, "-"]

/-- The encoder command `ffmpeg_cmd` (ffmpeg_encode.py lines 67-93): the
fixed head, then `-profile:v` when the profile defines a codec profile index
(line 79-80), then `-level:v` when it defines a level (line 81-82), then the
extra arguments (line 85), then the audio/subtitle copy flags, `-y`, and the
output path (lines 88-93). -/
def ffmpeg_cmd (p : EncodingProfile) (input_path output_path : String) :
    List String :=
  ["ffmpeg",
   "-i", "pipe:0",
   "-i", input_path,
   "-map", "0:v",
   "-map", "1:a?",
   "-map", "1:s?",
   "-c:v", p.codec,
   "-pix_fmt", p.pix_fmt]
  ++ (match p.profile with
      | some v => ["-profile:v", v]
      | none => [])
  ++ (match p.level with
      | some v => ["-level:v", v]
      | none => [])
  ++ p.extra_args
  ++ ["-c:a", "copy",
      "-c:s", "copy",
      "-y",
      output_path]

/-- Result of one `encode_video` call as the callers observe it: the boolean
return value together with the diagnostic text the function prints to
standard error on the failing paths (nothing is printed to standard error on
success). -/
structure JobResult where
  success : Bool
  diagnostic : Option String
deriving DecidableEq, Repr

/-- Behaviour of the external world during one `encode_video` call: whether
the `vspipe` and `ffmpeg` binaries resolve (a missing binary makes
`subprocess.Popen` raise `FileNotFoundError`), the encoder's exit code, the
encoder's captured standard-error stream (already decoded from bytes to
text), and the frame-source's own exit code. -/
structure ProcessWorld where
  vspipeFound : Bool
  ffmpegFound : Bool
  ffmpegExit : Int
  ffmpegStderrText : String
  vspipeExit : Int
deriving DecidableEq, Repr

/-- Trace of one `encode_video` call: the argument lists handed to
`subprocess.Popen`, in spawn order, and the observable result. -/
structure EncodeTrace where
  spawned : List (List String)
  result : JobResult
deriving DecidableEq, Repr

/-- Diagnostic printed when `subprocess.Popen` raises `FileNotFoundError`
(ffmpeg_encode.py line 117). -/
def toolNotFoundMsg : String :=
  "Error: Command not found. Is FFmpeg or VapourSynth in your system's PATH?"

/-- `encode_video` (ffmpeg_encode.py lines 45-122). The profile lookup
happens first (lines 57-60, nothing spawned on a miss); then `vspipe` is
spawned (line 100, `FileNotFoundError` caught at line 116), then `ffmpeg`
(line 101); the pipe handle is released and the orchestrator blocks on the
encoder (lines 104-107); success is the encoder's exit code being zero
(lines 109-114), with the decoded captured standard error printed on a
non-zero exit (line 111). The frame-source's exit code is never read. -/
def encode_video (w : ProcessWorld)
    (input_path output_path format_name vpy_script : String) : EncodeTrace :=
  match lookupProfile format_name with
  | none =>
      { spawned := [],
        result := { success := false,
                    diagnostic := some ("Error: Encoding profile for '"
                      ++ format_name ++ "' not found.") } }
  | some p =>
      let vcmd := vspipe_cmd vpy_script
      let fcmd := ffmpeg_cmd p input_path output_path
      if w.vspipeFound = false then
        { spawned := [],
          result := { success := false, diagnostic := some toolNotFoundMsg } }
      else if w.ffmpegFound = false then
        { spawned := [vcmd],
          result := { success := false, diagnostic := some toolNotFoundMsg } }
      else if w.ffmpegExit = 0 then
        { spawned := [vcmd, fcmd],
          result := { success := true, diagnostic := none } }
      else
        { spawned := [vcmd, fcmd],
          result := { success := false,
                      diagnostic := some w.ffmpegStderrText } }

/-- A `pathlib` path, embedded as its list of components. -/
abbrev Path : Type := List String

/-- The user-editable configuration block of pipeline.py (lines 15-91),
restricted to the settings the orchestration logic reads, plus the run
timestamp computed at line 166 (a `strftime` of the wall clock, an external
input to the embedding). -/
structure Config where
  input_file : Path
  input_directory : Path
  output_base_directory : Path
  batch_process_directory : Bool
  enable_prores_422_hq_10bit : Bool
  enable_prores_444_16bit : Bool
  enable_ffv1_10bit_422 : Bool
  enable_ffv1_12bit_444 : Bool
  timestamp : String

/-- `get_selected_format` (pipeline.py lines 108-119): the names whose
enable flag is true, in the dict's insertion order; the single selected name
when exactly one flag is enabled, `None` otherwise. -/
def get_selected_format (c : Config) : Option String :=
  let formats : List (String × Bool) :=
    [ ("prores_422_hq_10bit", c.enable_prores_422_hq_10bit),
      ("prores_444_16bit", c.enable_prores_444_16bit),
      ("ffv1_10bit_422", c.enable_ffv1_10bit_422),
      ("ffv1_12bit_444", c.enable_ffv1_12bit_444) ]
  match (formats.filter (fun e => e.2)).map Prod.fst with
  | [name] => some name
  | _ => none

/-- Index of the last occurrence of `a` in `l` (Python `str.rfind`, as a
`none` instead of `-1` when absent). -/
def lastIdxOf (a : Char) (l : List Char) : Option Nat :=
  ((l.enum.filter (fun e => e.2 == a)).map Prod.fst).getLast?

/-- `pathlib.PurePath.stem` applied to a file name: the name without its
last suffix, where a dot at the very start or the very end of the name does
not begin a suffix. -/
def path_stem (name : String) : String :=
  match lastIdxOf '.' name.data with
  | some i =>
      if 0 < i ∧ i + 1 < name.data.length then String.mk (name.data.take i)
      else name
  | none => name

/-- `pathlib.PurePath.relative_to` on component lists: `relative_to p base`
strips `base` off the front of `p`, and is `none` (a raised `ValueError`)
when `base` is not a component-wise prefix of `p`. -/
def relative_to : Path → Path → Option Path
  | p, [] => some p
  | [], _ :: _ => none
  | a :: p, b :: base => if a = b then relative_to p base else none

/-- Python's substring containment `needle in hay`. -/
def str_contains (hay needle : String) : Bool :=
  (List.range (hay.data.length + 1)).any
    (fun i => needle.data.isPrefixOf (hay.data.drop i))

/-- The per-job destination directory (pipeline.py lines 222-227): in batch
mode the timestamped output directory extended with the input file's parent
path relative to the input directory (`none` when `relative_to` raises,
which aborts the run); in single-file mode the timestamped output directory
itself. -/
def job_output_dir (c : Config) (output_dir : Path) (file : Path) :
    Option Path :=
  if c.batch_process_directory then
    (relative_to file c.input_directory).map
      (fun rel => output_dir ++ rel.dropLast)
  else some output_dir

/-- The per-job output file name (pipeline.py lines 231-237): the extension
starts as the selected profile's codec (`'mov'` if the catalog entry had no
codec key), is forced to `mov` when the format name contains `prores` and to
`mkv` when it contains `ffv1`; the name is the input file's stem, the run
timestamp and the format name joined by underscores, followed by a dot and
the extension. -/
def job_filename (c : Config) (selected_format : String) (file : Path) :
    String :=
  let file_ext :=
    match lookupProfile selected_format with
    | some p => p.codec
    | none => "mov"
  let file_ext :=
    if str_contains selected_format "prores" then "mov"
    else if str_contains selected_format "ffv1" then "mkv"
    else file_ext
  path_stem ((file.getLast?).getD "") ++ "_" ++ c.timestamp ++ "_"
    ++ selected_format ++ "." ++ file_ext

/-- The full per-job output path (pipeline.py line 238), `none` when
computing the destination directory raised. -/
def job_output_path (c : Config) (output_dir : Path) (selected_format : String)
    (file : Path) : Option Path :=
  (job_output_dir c output_dir file).map
    (fun d => d ++ [job_filename c selected_format file])

/-- Outcome of a Python call: a returned value or a raised exception
carrying its message. -/
inductive PyResult (α : Type) where
  | ok : α → PyResult α
  | exn : String → PyResult α
deriving DecidableEq, Repr

/-- Outcome of one file as `process_file` records it in the log. -/
inductive JobOutcome where
  | succeeded
  | failed
  | errored (msg : String)
deriving DecidableEq, Repr

/-- `process_file` (pipeline.py lines 131-158): calls the encoder inside a
`try`, logs success or failure from the returned boolean, and catches any
exception the call raises, logging it; it never propagates an exception to
the batch loop. `encodeCall` is the behaviour of the
`ffmpeg_encode.encode_video` call for this file. -/
def process_file (encodeCall : PyResult Bool) : JobOutcome :=
  match encodeCall with
  | PyResult.ok true => JobOutcome.succeeded
  | PyResult.ok false => JobOutcome.failed
  | PyResult.exn msg => JobOutcome.errored msg

/-- The per-file loop of `main` (pipeline.py lines 219-240): for each file
in discovery order, compute the destination directory (an exception from
`relative_to` aborts the loop: uncaught in `main`), create it, compute the
output path, and run `process_file`, which never throws. Returns the
directories created for jobs, the recorded `(file, outcome)` pairs, and
whether the loop ran to completion. -/
def job_loop (c : Config) (enc : Path → PyResult Bool) (output_dir : Path)
    (selected_format : String) :
    List Path → List Path × List (Path × JobOutcome) × Bool
  | [] => ([], [], true)
  | f :: rest =>
      match job_output_dir c output_dir f with
      | none => ([], [], false)
      | some d =>
          let r := job_loop c enc output_dir selected_format rest
          (d :: r.1, (f, process_file (enc f)) :: r.2.1, r.2.2)

/-- External world of one `main` run (pipeline.py lines 161-242): whether
each required binary resolves on PATH (`check_dependencies`, lines 98-106),
whether the single input file exists (line 208), the files the directory
scan yields in batch mode (line 202), and the behaviour of the encoder call
per input file. -/
structure RunWorld where
  ffmpegFound : Bool
  vspipeFound : Bool
  inputFileOnDisk : Bool
  scannedFiles : List Path
  encodeResult : Path → PyResult Bool

/-- Observable trace of one `main` run: whether the timestamped run
directory was created (always, line 168, before any validation), the
directories created for jobs (line 229), the per-file outcomes, and whether
the process exited with a non-zero code. -/
structure RunTrace where
  runDirCreated : Bool
  jobDirsCreated : List Path
  results : List (Path × JobOutcome)
  exitedNonZero : Bool

/-- `main` (pipeline.py lines 161-242): create the timestamped run
directory; validate that exactly one format is selected (`sys.exit(1)` at
line 189 otherwise); check both external tools (`sys.exit(1)` at line 195);
discover input files (batch scan, or the single configured file with
`sys.exit(1)` at line 212 when missing); then drive the per-file loop. An
exception escaping the loop also ends the process with a non-zero code. -/
def mainRun (c : Config) (w : RunWorld) : RunTrace :=
  match get_selected_format c with
  | none =>
      { runDirCreated := true, jobDirsCreated := [], results := [],
        exitedNonZero := true }
  | some selected_format =>
      if (w.ffmpegFound && w.vspipeFound) = false then
        { runDirCreated := true, jobDirsCreated := [], results := [],
          exitedNonZero := true }
      else
        let output_dir : Path := c.output_base_directory ++ [c.timestamp]
        let files? : Option (List Path) :=
          if c.batch_process_directory then some w.scannedFiles
          else if w.inputFileOnDisk then some [c.input_file] else none
        match files? with
        | none =>
            { runDirCreated := true, jobDirsCreated := [], results := [],
              exitedNonZero := true }
        | some files =>
            let r := job_loop c w.encodeResult output_dir selected_format files
            { runDirCreated := true, jobDirsCreated := r.1, results := r.2.1,
              exitedNonZero := r.2.2 = false }

/-- Modelled from the spec (§4.2), for comparison with `ffmpeg_cmd`: the
encoder argument order the specification mandates, steps 1 through 14. -/
def specEncoderOrder (p : EncodingProfile) (input_path output_path : String) :
    List String :=
  ["-i", "pipe:0"]
  ++ ["-i", input_path]
  ++ ["-map", "0:v"]
  ++ ["-map", "1:a?"]
  ++ ["-map", "1:s?"]
  ++ ["-c:v", p.codec]
  ++ ["-pix_fmt", p.pix_fmt]
  ++ (Option.elim p.profile [] (fun v => ["-profile:v", v]))
  ++ (Option.elim p.level [] (fun v => ["-level:v", v]))
  ++ p.extra_args
  ++ ["-c:a", "copy"]
  ++ ["-c:s", "copy"]
  ++ ["-y"]
  ++ [output_path]

/-- A concrete single-file-mode configuration, used in witnesses. -/
def demoSingleConfig : Config :=
  { input_file := ["a.mkv"], input_directory := ["input"],
    output_base_directory := ["out"], batch_process_directory := false,
    enable_prores_422_hq_10bit := true, enable_prores_444_16bit := false,
    enable_ffv1_10bit_422 := false, enable_ffv1_12bit_444 := false,
    timestamp := "2024-01-01_00-00-00" }

/-- The same concrete configuration in directory-batch mode. -/
def demoBatchConfig : Config :=
  { demoSingleConfig with batch_process_directory := true }

/-- The same concrete configuration with no output format enabled. -/
def demoNoFormatConfig : Config :=
  { demoSingleConfig with enable_prores_422_hq_10bit := false }

/-- The batch-mode configuration with the FFV1 10-bit profile selected,
used to exhibit the output-path collision. -/
def demoFfv1BatchConfig : Config :=
  { demoSingleConfig with
    batch_process_directory := true,
    enable_prores_422_hq_10bit := false, enable_ffv1_10bit_422 := true }

/-- A run world where both tools resolve, the single input file exists and
every encoder call succeeds. -/
def demoRunWorld : RunWorld :=
  { ffmpegFound := true, vspipeFound := true, inputFileOnDisk := true,
    scannedFiles := [], encodeResult := fun _ => PyResult.ok true }

/-- An encoder behaviour that fails (returns `False`) on `a.mkv` and raises
on any other file, used as a hostile oracle in witnesses. -/
def demoHostileEnc : Path → PyResult Bool :=
  fun f => if f = ["a.mkv"] then PyResult.ok false else PyResult.exn "boom"

/-- C1: for every profile in the catalog and all input/output paths, the
built encoder argument list is, after the program name, exactly the §4.2
order: `-i pipe:0`, `-i <input>`, `-map 0:v`, `-map 1:a?`, `-map 1:s?`,
`-c:v <codec>`, `-pix_fmt <pix_fmt>`, the profile-index flag if defined,
the level flag if defined, the extra arguments verbatim, `-c:a copy`,
`-c:s copy`, `-y`, and the destination path last. -/
theorem C1_encoder_argument_order (name : String) (p : EncodingProfile)
    (hmem : (name, p) ∈ ENCODING_PROFILES) (input_path output_path : String) :
    ffmpeg_cmd p input_path output_path =
      "ffmpeg" :: specEncoderOrder p input_path output_path := by
  simp only [ENCODING_PROFILES, List.mem_cons, List.not_mem_nil, or_false,
    Prod.mk.injEq] at hmem
  rcases hmem with ⟨-, rfl⟩ | ⟨-, rfl⟩ | ⟨-, rfl⟩ | ⟨-, rfl⟩ <;> rfl

/-- Witness for C1 at the first catalog entry and concrete paths. -/
theorem C1_encoder_argument_order_witness :
    ffmpeg_cmd
        { codec := "prores_ks", profile := some "3", level := none,
          pix_fmt := "yuv422p10le", extra_args := ["-vendor", "apl0"] }
        "in.mkv" "out.mov"
      = "ffmpeg" :: specEncoderOrder
        { codec := "prores_ks", profile := some "3", level := none,
          pix_fmt := "yuv422p10le", extra_args := ["-vendor", "apl0"] }
        "in.mkv" "out.mov" :=
  C1_encoder_argument_order "prores_422_hq_10bit" _ (by decide)
    "in.mkv" "out.mov"

/-- C2: when the profile is found and both processes launch, the job
succeeds if and only if the encoder exits with code zero, and the
frame-source's own exit code has no effect on anything `encode_video`
does. -/
theorem C2_success_iff_encoder_exit_zero (w : ProcessWorld)
    (input_path output_path format_name vpy_script : String)
    (p : EncodingProfile) (hp : lookupProfile format_name = some p)
    (hv : w.vspipeFound = true) (hf : w.ffmpegFound = true) :
    ((encode_video w input_path output_path format_name
        vpy_script).result.success = true ↔ w.ffmpegExit = 0)
    ∧ ∀ r : Int,
        encode_video { w with vspipeExit := r } input_path output_path
            format_name vpy_script
          = encode_video w input_path output_path format_name vpy_script := by
  constructor
  · by_cases he : w.ffmpegExit = 0 <;> simp [encode_video, hp, hv, hf, he]
  · intro r
    simp [encode_video, hp]

/-- Witness for C2 at a concrete world and format. -/
theorem C2_success_iff_encoder_exit_zero_witness :
    ((encode_video
        { vspipeFound := true, ffmpegFound := true, ffmpegExit := 0,
          ffmpegStderrText := "", vspipeExit := 7 }
        "in.mkv" "out.mkv" "ffv1_10bit_422" "process.vpy").result.success
        = true ↔ (0 : Int) = 0)
    ∧ ∀ r : Int,
        encode_video
            { vspipeFound := true, ffmpegFound := true, ffmpegExit := 0,
              ffmpegStderrText := "", vspipeExit := r }
            "in.mkv" "out.mkv" "ffv1_10bit_422" "process.vpy"
          = encode_video
            { vspipeFound := true, ffmpegFound := true, ffmpegExit := 0,
              ffmpegStderrText := "", vspipeExit := 7 }
            "in.mkv" "out.mkv" "ffv1_10bit_422" "process.vpy" :=
  C2_success_iff_encoder_exit_zero
    { vspipeFound := true, ffmpegFound := true, ffmpegExit := 0,
      ffmpegStderrText := "", vspipeExit := 7 }
    "in.mkv" "out.mkv" "ffv1_10bit_422" "process.vpy"
    { codec := "ffv1", profile := none, level := some "3",
      pix_fmt := "yuv422p10le",
      extra_args := ["-coder", "1", "-context", "1", "-g", "1"] }
    (by decide) rfl rfl

/-- C3: when the profile is found, both processes launch and the encoder
exits non-zero, the result is a failure carrying the encoder's captured
standard-error text as its diagnostic; and in every run whatsoever, a
successful result carries no diagnostic text. -/
theorem C3_failure_carries_decoded_stderr (w : ProcessWorld)
    (input_path output_path format_name vpy_script : String)
    (p : EncodingProfile) (hp : lookupProfile format_name = some p)
    (hv : w.vspipeFound = true) (hf : w.ffmpegFound = true)
    (he : w.ffmpegExit ≠ 0) :
    (encode_video w input_path output_path format_name vpy_script).result
      = { success := false, diagnostic := some w.ffmpegStderrText }
    ∧ ∀ (w' : ProcessWorld) (i o f s : String),
        (encode_video w' i o f s).result.success = true →
        (encode_video w' i o f s).result.diagnostic = none := by
  constructor
  · simp [encode_video, hp, hv, hf, he]
  · intro w' i o f s hsucc
    cases hlk : lookupProfile f with
    | none => simp [encode_video, hlk] at hsucc
    | some q =>
      by_cases h1 : w'.vspipeFound = false
      · simp [encode_video, hlk, h1] at hsucc
      · by_cases h2 : w'.ffmpegFound = false
        · simp [encode_video, hlk, h1, h2] at hsucc
        · by_cases h3 : w'.ffmpegExit = 0
          · simp [encode_video, hlk, h1, h2, h3]
          · simp [encode_video, hlk, h1, h2, h3] at hsucc

/-- Witness for C3 at a concrete world with a failing encoder. -/
theorem C3_failure_carries_decoded_stderr_witness :
    (encode_video
        { vspipeFound := true, ffmpegFound := true, ffmpegExit := 1,
          ffmpegStderrText := "pixel format incompatible", vspipeExit := 0 }
        "in.mkv" "out.mov" "prores_444_16bit" "process.vpy").result
      = { success := false, diagnostic := some "pixel format incompatible" }
    ∧ ∀ (w' : ProcessWorld) (i o f s : String),
        (encode_video w' i o f s).result.success = true →
        (encode_video w' i o f s).result.diagnostic = none :=
  C3_failure_carries_decoded_stderr
    { vspipeFound := true, ffmpegFound := true, ffmpegExit := 1,
      ffmpegStderrText := "pixel format incompatible", vspipeExit := 0 }
    "in.mkv" "out.mov" "prores_444_16bit" "process.vpy"
    { codec := "prores_ks", profile := some "4", level := none,
      pix_fmt := "yuv444p16le", extra_args := ["-vendor", "apl0"] }
    (by decide) rfl rfl (by decide)

set_option maxHeartbeats 3200000 in
/-- C5: for every catalog entry, and any paths that are not themselves one
of the two flag strings, the built encoder list contains exactly one of
`-profile:v` or `-level:v`, exactly once; and a profile with no codec
profile index yields a list with no `-profile:v` occurrence at all. -/
theorem C5_profile_xor_level_flag (name : String) (p : EncodingProfile)
    (hmem : (name, p) ∈ ENCODING_PROFILES) (input_path output_path : String)
    (hi1 : input_path ≠ "-profile:v") (hi2 : input_path ≠ "-level:v")
    (ho1 : output_path ≠ "-profile:v") (ho2 : output_path ≠ "-level:v") :
    (((ffmpeg_cmd p input_path output_path).count "-profile:v" = 1
        ∧ (ffmpeg_cmd p input_path output_path).count "-level:v" = 0)
      ∨ ((ffmpeg_cmd p input_path output_path).count "-profile:v" = 0
        ∧ (ffmpeg_cmd p input_path output_path).count "-level:v" = 1))
    ∧ (p.profile = none →
        "-profile:v" ∉ ffmpeg_cmd p input_path output_path) := by
  simp only [ENCODING_PROFILES, List.mem_cons, List.not_mem_nil, or_false,
    Prod.mk.injEq] at hmem
  rcases hmem with ⟨-, rfl⟩ | ⟨-, rfl⟩ | ⟨-, rfl⟩ | ⟨-, rfl⟩ <;>
    simp only [ffmpeg_cmd, List.cons_append, List.nil_append] <;>
    refine ⟨?_, ?_⟩
  · exact Or.inl ⟨by simp [List.count_cons, hi1, hi2, ho1, ho2],
      by simp [List.count_cons, hi1, hi2, ho1, ho2]⟩
  · intro hnone
    simp at hnone
  · exact Or.inl ⟨by simp [List.count_cons, hi1, hi2, ho1, ho2],
      by simp [List.count_cons, hi1, hi2, ho1, ho2]⟩
  · intro hnone
    simp at hnone
  · exact Or.inr ⟨by simp [List.count_cons, hi1, hi2, ho1, ho2],
      by simp [List.count_cons, hi1, hi2, ho1, ho2]⟩
  · intro hnone
    simp [Ne.symm hi1, Ne.symm ho1]
  · exact Or.inr ⟨by simp [List.count_cons, hi1, hi2, ho1, ho2],
      by simp [List.count_cons, hi1, hi2, ho1, ho2]⟩
  · intro hnone
    simp [Ne.symm hi1, Ne.symm ho1]

/-- Witness for C5 at the third catalog entry (no profile index) and
concrete paths. -/
theorem C5_profile_xor_level_flag_witness :
    (((ffmpeg_cmd
          { codec := "ffv1", profile := none, level := some "3",
            pix_fmt := "yuv422p10le",
            extra_args := ["-coder", "1", "-context", "1", "-g", "1"] }
          "in.mkv" "out.mkv").count "-profile:v" = 1
        ∧ (ffmpeg_cmd
          { codec := "ffv1", profile := none, level := some "3",
            pix_fmt := "yuv422p10le",
            extra_args := ["-coder", "1", "-context", "1", "-g", "1"] }
          "in.mkv" "out.mkv").count "-level:v" = 0)
      ∨ ((ffmpeg_cmd
          { codec := "ffv1", profile := none, level := some "3",
            pix_fmt := "yuv422p10le",
            extra_args := ["-coder", "1", "-context", "1", "-g", "1"] }
          "in.mkv" "out.mkv").count "-profile:v" = 0
        ∧ (ffmpeg_cmd
          { codec := "ffv1", profile := none, level := some "3",
            pix_fmt := "yuv422p10le",
            extra_args := ["-coder", "1", "-context", "1", "-g", "1"] }
          "in.mkv" "out.mkv").count "-level:v" = 1))
    ∧ (EncodingProfile.profile
          { codec := "ffv1", profile := none, level := some "3",
            pix_fmt := "yuv422p10le",
            extra_args := ["-coder", "1", "-context", "1", "-g", "1"] } = none →
        "-profile:v" ∉ ffmpeg_cmd
          { codec := "ffv1", profile := none, level := some "3",
            pix_fmt := "yuv422p10le",
            extra_args := ["-coder", "1", "-context", "1", "-g", "1"] }
          "in.mkv" "out.mkv") :=
  C5_profile_xor_level_flag "ffv1_10bit_422" _ (by decide) "in.mkv" "out.mkv"
    (by decide) (by decide) (by decide) (by decide)

/-- C9: when the requested format is absent from the catalog, the call
returns a failure without spawning either external process. -/
theorem C9_profile_not_found_no_spawn (w : ProcessWorld)
    (input_path output_path format_name vpy_script : String)
    (h : lookupProfile format_name = none) :
    (encode_video w input_path output_path format_name vpy_script).spawned
      = []
    ∧ (encode_video w input_path output_path format_name
        vpy_script).result.success = false := by
  simp [encode_video, h]

/-- Witness for C9 at a format name outside the catalog. -/
theorem C9_profile_not_found_no_spawn_witness :
    (encode_video
        { vspipeFound := true, ffmpegFound := true, ffmpegExit := 0,
          ffmpegStderrText := "", vspipeExit := 0 }
        "in.mkv" "out.webm" "webm_vp9" "process.vpy").spawned = []
    ∧ (encode_video
        { vspipeFound := true, ffmpegFound := true, ffmpegExit := 0,
          ffmpegStderrText := "", vspipeExit := 0 }
        "in.mkv" "out.webm" "webm_vp9" "process.vpy").result.success
        = false :=
  C9_profile_not_found_no_spawn
    { vspipeFound := true, ffmpegFound := true, ffmpegExit := 0,
      ffmpegStderrText := "", vspipeExit := 0 }
    "in.mkv" "out.webm" "webm_vp9" "process.vpy" (by decide)


/-- Stripping a base off a path it prefixes recovers the relative part. -/
theorem relative_to_append (base rel : Path) :
    relative_to (base ++ rel) base = some rel := by
  induction base with
  | nil => simp [relative_to]
  | cons b bs ih => simp [relative_to, ih]

/-- Appending a fixed suffix to a string is injective in the left operand. -/
theorem string_append_right_cancel (u s t : String) (h : s ++ u = t ++ u) :
    s = t := by
  have hd : s.data ++ u.data = t.data ++ u.data := by
    have := congrArg String.data h
    simpa using this
  exact String.ext (List.append_cancel_right hd)

/-- When the number of enabled format flags differs from one,
`get_selected_format` yields `None`. -/
theorem get_selected_format_eq_none (c : Config)
    (h : [c.enable_prores_422_hq_10bit, c.enable_prores_444_16bit,
          c.enable_ffv1_10bit_422, c.enable_ffv1_12bit_444].count true ≠ 1) :
    get_selected_format c = none := by
  cases h1 : c.enable_prores_422_hq_10bit <;>
    cases h2 : c.enable_prores_444_16bit <;>
    cases h3 : c.enable_ffv1_10bit_422 <;>
    cases h4 : c.enable_ffv1_12bit_444 <;>
    simp_all [get_selected_format, List.count_cons]

/-- C6: the batch loop attempts every discovered file in order and records
one outcome per file, for every behaviour of the encoder — in particular a
failure result or a raised exception on any file leaves the other files'
attempts and recorded outcomes unchanged — provided each file's destination
directory computation succeeds (as it does for every file discovered under
the input directory). -/
theorem C6_batch_attempts_every_file (c : Config) (enc : Path → PyResult Bool)
    (output_dir : Path) (selected_format : String) (files : List Path)
    (hdirs : ∀ f ∈ files, (job_output_dir c output_dir f).isSome = true) :
    (job_loop c enc output_dir selected_format files).2.1
      = files.map (fun f => (f, process_file (enc f)))
    ∧ (job_loop c enc output_dir selected_format files).2.2 = true := by
  induction files with
  | nil => exact ⟨rfl, rfl⟩
  | cons f rest ih =>
      have hf := hdirs f (List.mem_cons_self f rest)
      obtain ⟨d, hd⟩ := Option.isSome_iff_exists.mp hf
      have hrest := ih (fun g hg => hdirs g (List.mem_cons_of_mem f hg))
      refine ⟨?_, ?_⟩ <;> simp [job_loop, hd, hrest.1, hrest.2]

/-- Witness for C6: a single-file-mode run over two files where the encoder
fails on the first file and raises on the second; both files are still
attempted and both outcomes are recorded. -/
theorem C6_batch_attempts_every_file_witness :
    (∀ f ∈ ([["a.mkv"], ["b.mkv"]] : List Path),
      (job_output_dir demoSingleConfig ["out", "2024-01-01_00-00-00"]
          f).isSome = true)
    ∧ ((job_loop demoSingleConfig demoHostileEnc
          ["out", "2024-01-01_00-00-00"] "prores_422_hq_10bit"
          [["a.mkv"], ["b.mkv"]]).2.1
        = ([["a.mkv"], ["b.mkv"]] : List Path).map
            (fun f => (f, process_file (demoHostileEnc f)))
      ∧ (job_loop demoSingleConfig demoHostileEnc
          ["out", "2024-01-01_00-00-00"] "prores_422_hq_10bit"
          [["a.mkv"], ["b.mkv"]]).2.2 = true) :=
  ⟨by decide,
   C6_batch_attempts_every_file demoSingleConfig demoHostileEnc
    ["out", "2024-01-01_00-00-00"] "prores_422_hq_10bit"
    [["a.mkv"], ["b.mkv"]] (by decide)⟩

/-- C7: when the number of enabled output-format flags is zero or at least
two, the run exits non-zero having run no job and created no job output
directory. -/
theorem C7_startup_validation_aborts (c : Config) (w : RunWorld)
    (h : [c.enable_prores_422_hq_10bit, c.enable_prores_444_16bit,
          c.enable_ffv1_10bit_422, c.enable_ffv1_12bit_444].count true ≠ 1) :
    (mainRun c w).exitedNonZero = true
    ∧ (mainRun c w).jobDirsCreated = []
    ∧ (mainRun c w).results = [] := by
  simp [mainRun, get_selected_format_eq_none c h]

/-- Witness for C7 at an all-flags-disabled configuration. -/
theorem C7_startup_validation_aborts_witness :
    ([demoNoFormatConfig.enable_prores_422_hq_10bit,
      demoNoFormatConfig.enable_prores_444_16bit,
      demoNoFormatConfig.enable_ffv1_10bit_422,
      demoNoFormatConfig.enable_ffv1_12bit_444].count true ≠ 1)
    ∧ ((mainRun demoNoFormatConfig demoRunWorld).exitedNonZero = true
      ∧ (mainRun demoNoFormatConfig demoRunWorld).jobDirsCreated = []
      ∧ (mainRun demoNoFormatConfig demoRunWorld).results = []) :=
  ⟨by decide,
   C7_startup_validation_aborts demoNoFormatConfig demoRunWorld (by decide)⟩

/-- C8: for every catalog entry, the computed output file name is the input
file's stem, the run timestamp and the selected format name joined by
underscores, with extension `mov` for the ProRes-family profiles and `mkv`
for the FFV1-family profiles. -/
theorem C8_output_filename_shape (c : Config) (name : String)
    (p : EncodingProfile) (hmem : (name, p) ∈ ENCODING_PROFILES)
    (file : Path) :
    job_filename c name file
      = path_stem ((file.getLast?).getD "") ++ "_" ++ c.timestamp ++ "_"
        ++ name ++ "."
        ++ (if p.codec = "prores_ks" then "mov" else "mkv") := by
  simp only [ENCODING_PROFILES, List.mem_cons, List.not_mem_nil, or_false,
    Prod.mk.injEq] at hmem
  rcases hmem with ⟨rfl, rfl⟩ | ⟨rfl, rfl⟩ | ⟨rfl, rfl⟩ | ⟨rfl, rfl⟩ <;> rfl

/-- Witness for C8 at the fourth catalog entry and a concrete file. -/
theorem C8_output_filename_shape_witness :
    (("ffv1_12bit_444",
        ({ codec := "ffv1", profile := none, level := some "3",
           pix_fmt := "yuv444p12le",
           extra_args := ["-coder", "1", "-context", "1", "-g", "1"] }
          : EncodingProfile)) ∈ ENCODING_PROFILES)
    ∧ job_filename demoFfv1BatchConfig "ffv1_12bit_444"
        ["input", "clip.mov"]
      = path_stem (((["input", "clip.mov"] : Path).getLast?).getD "") ++ "_"
        ++ demoFfv1BatchConfig.timestamp ++ "_" ++ "ffv1_12bit_444" ++ "."
        ++ (if EncodingProfile.codec
              { codec := "ffv1", profile := none, level := some "3",
                pix_fmt := "yuv444p12le",
                extra_args := ["-coder", "1", "-context", "1", "-g", "1"] }
              = "prores_ks" then "mov" else "mkv") :=
  ⟨by decide,
   C8_output_filename_shape demoFfv1BatchConfig "ffv1_12bit_444"
    { codec := "ffv1", profile := none, level := some "3",
      pix_fmt := "yuv444p12le",
      extra_args := ["-coder", "1", "-context", "1", "-g", "1"] }
    (by decide) ["input", "clip.mov"]⟩

/-- C10: in batch mode a job's output file goes under the timestamped
output directory at the input file's subdirectory path relative to the
input directory; in single-file mode it goes directly into the timestamped
output directory. -/
theorem C10_output_mirrors_input_layout (c : Config) (output_dir : Path)
    (selected_format : String) (rel : Path) (file : Path) :
    (c.batch_process_directory = true →
      job_output_path c output_dir selected_format (c.input_directory ++ rel)
        = some (output_dir ++ rel.dropLast
            ++ [job_filename c selected_format (c.input_directory ++ rel)]))
    ∧ (c.batch_process_directory = false →
      job_output_path c output_dir selected_format file
        = some (output_dir ++ [job_filename c selected_format file])) := by
  constructor
  · intro hb
    simp [job_output_path, job_output_dir, hb, relative_to_append]
  · intro hb
    simp [job_output_path, job_output_dir, hb]

/-- Witness for C10 at a concrete batch-mode configuration. -/
theorem C10_output_mirrors_input_layout_witness :
    (demoBatchConfig.batch_process_directory = true →
      job_output_path demoBatchConfig ["out", "2024-01-01_00-00-00"]
          "prores_422_hq_10bit"
          (demoBatchConfig.input_directory ++ ["sub", "clip.mkv"])
        = some (["out", "2024-01-01_00-00-00"]
            ++ (["sub", "clip.mkv"] : Path).dropLast
            ++ [job_filename demoBatchConfig "prores_422_hq_10bit"
                (demoBatchConfig.input_directory ++ ["sub", "clip.mkv"])]))
    ∧ (demoBatchConfig.batch_process_directory = false →
      job_output_path demoBatchConfig ["out", "2024-01-01_00-00-00"]
          "prores_422_hq_10bit" ["x.mkv"]
        = some (["out", "2024-01-01_00-00-00"]
            ++ [job_filename demoBatchConfig "prores_422_hq_10bit"
                ["x.mkv"]])) :=
  C10_output_mirrors_input_layout demoBatchConfig
    ["out", "2024-01-01_00-00-00"] "prores_422_hq_10bit"
    ["sub", "clip.mkv"] ["x.mkv"]

/-- The last component of a path of the shape `l ++ (d ++ [n])` is `n`. -/
theorem getLast_of_append_concat (l d : Path) (n : String) :
    (l ++ (d ++ [n])).getLast? = some n := by
  rw [← List.append_assoc]
  exact List.getLast?_concat _

/-- Two files assigned equal output file names under the same configuration
and format have equal stems. -/
theorem job_filename_inj_stem (c : Config) (fmt : String) (f1 f2 : Path)
    (n1 n2 : String) (h1 : f1.getLast? = some n1)
    (h2 : f2.getLast? = some n2)
    (h : job_filename c fmt f1 = job_filename c fmt f2) :
    path_stem n1 = path_stem n2 := by
  simp only [job_filename, h1, h2, Option.getD_some] at h
  have a1 := string_append_right_cancel _ _ _ h
  have a2 := string_append_right_cancel _ _ _ a1
  have a3 := string_append_right_cancel _ _ _ a2
  have a4 := string_append_right_cancel _ _ _ a3
  have a5 := string_append_right_cancel _ _ _ a4
  exact string_append_right_cancel _ _ _ a5

/-- C4 counterexample: within one batch run under `ffv1_10bit_422` at a
fixed timestamp, the two distinct inputs `input/clip.mov` and
`input/clip.mkv` — same stem, different extension — are assigned the same
output path. -/
theorem C4_counterexample_same_stem_collision :
    (["input", "clip.mov"] : Path) ≠ ["input", "clip.mkv"]
    ∧ job_output_path demoFfv1BatchConfig ["out", "2024-01-01_00-00-00"]
        "ffv1_10bit_422" ["input", "clip.mov"]
      = job_output_path demoFfv1BatchConfig ["out", "2024-01-01_00-00-00"]
        "ffv1_10bit_422" ["input", "clip.mkv"] :=
  ⟨by decide, by rfl⟩

/-- C4 amended: within one batch run, two input files under the input
directory receive distinct output paths whenever their relative
subdirectories differ or the stems of their file names differ; only two
inputs sharing both the subdirectory and the stem — such as names differing
only in their extension — collide, as the counterexample shows. -/
theorem C4_amended_distinct_dir_or_stem_unique_paths (c : Config)
    (output_dir : Path) (selected_format : String) (d1 d2 : Path)
    (n1 n2 : String) (hb : c.batch_process_directory = true)
    (hne : d1 ≠ d2 ∨ path_stem n1 ≠ path_stem n2) :
    job_output_path c output_dir selected_format
        (c.input_directory ++ (d1 ++ [n1]))
      ≠ job_output_path c output_dir selected_format
        (c.input_directory ++ (d2 ++ [n2])) := by
  intro hcontr
  have e1 : job_output_path c output_dir selected_format
      (c.input_directory ++ (d1 ++ [n1]))
      = some ((output_dir ++ d1) ++ [job_filename c selected_format
          (c.input_directory ++ (d1 ++ [n1]))]) := by
    simp [job_output_path, job_output_dir, hb, relative_to_append,
      List.dropLast_concat]
  have e2 : job_output_path c output_dir selected_format
      (c.input_directory ++ (d2 ++ [n2]))
      = some ((output_dir ++ d2) ++ [job_filename c selected_format
          (c.input_directory ++ (d2 ++ [n2]))]) := by
    simp [job_output_path, job_output_dir, hb, relative_to_append,
      List.dropLast_concat]
  rw [e1, e2] at hcontr
  have hl : d1 ++ [job_filename c selected_format
      (c.input_directory ++ (d1 ++ [n1]))]
      = d2 ++ [job_filename c selected_format
          (c.input_directory ++ (d2 ++ [n2]))] := by
    have h0 := Option.some.inj hcontr
    rw [List.append_assoc, List.append_assoc] at h0
    exact List.append_cancel_left h0
  have hd : d1 = d2 := by
    have := congrArg List.dropLast hl
    simpa [List.dropLast_concat] using this
  have hfn : job_filename c selected_format
      (c.input_directory ++ (d1 ++ [n1]))
      = job_filename c selected_format
        (c.input_directory ++ (d2 ++ [n2])) := by
    have := congrArg List.getLast? hl
    simpa [List.getLast?_concat] using this
  have hs := job_filename_inj_stem c selected_format _ _ n1 n2
    (getLast_of_append_concat _ _ _) (getLast_of_append_concat _ _ _) hfn
  rcases hne with hne | hne
  · exact hne hd
  · exact hne hs

/-- Witness for the amended C4: distinct subdirectories with equal stems,
and equal subdirectories with distinct stems, both give distinct paths. -/
theorem C4_amended_distinct_dir_or_stem_unique_paths_witness :
    (demoFfv1BatchConfig.batch_process_directory = true
      ∧ ((["sub"] : Path) ≠ ["other"] ∨ path_stem "a.mkv" ≠ path_stem "a.mkv")
      ∧ job_output_path demoFfv1BatchConfig ["out", "2024-01-01_00-00-00"]
          "ffv1_10bit_422"
          (demoFfv1BatchConfig.input_directory ++ (["sub"] ++ ["a.mkv"]))
        ≠ job_output_path demoFfv1BatchConfig ["out", "2024-01-01_00-00-00"]
          "ffv1_10bit_422"
          (demoFfv1BatchConfig.input_directory ++ (["other"] ++ ["a.mkv"])))
    ∧ (((["sub"] : Path) ≠ ["sub"] ∨ path_stem "a.mkv" ≠ path_stem "b.mkv")
      ∧ job_output_path demoFfv1BatchConfig ["out", "2024-01-01_00-00-00"]
          "ffv1_10bit_422"
          (demoFfv1BatchConfig.input_directory ++ (["sub"] ++ ["a.mkv"]))
        ≠ job_output_path demoFfv1BatchConfig ["out", "2024-01-01_00-00-00"]
          "ffv1_10bit_422"
          (demoFfv1BatchConfig.input_directory ++ (["sub"] ++ ["b.mkv"]))) :=
  ⟨⟨by decide, Or.inl (by decide),
    C4_amended_distinct_dir_or_stem_unique_paths demoFfv1BatchConfig
      ["out", "2024-01-01_00-00-00"] "ffv1_10bit_422" ["sub"] ["other"]
      "a.mkv" "a.mkv" (by decide) (Or.inl (by decide))⟩,
   ⟨Or.inr (by decide),
    C4_amended_distinct_dir_or_stem_unique_paths demoFfv1BatchConfig
      ["out", "2024-01-01_00-00-00"] "ffv1_10bit_422" ["sub"] ["sub"]
      "a.mkv" "b.mkv" (by decide) (Or.inr (by decide))⟩⟩

end DitheryDoo
